import Mathlib

/-!
Verification of the `arena_api` binding layer and example scripts
(Lucid Vision Labs `arena_api` 2.2.5 as vendored in this repository).

The Python source is shallowly embedded: each relevant Python function
becomes a Lean function.  Calls into the vendor native library
(`ArenaC` / `SaveC`, reached through the `_xlayer` foreign-function
modules) are recorded as explicit events in a trace, so that theorems
can speak about exactly which native calls an operation performs and
with which arguments.

`_xlayer/xarena/_xnodemap.py`, `_node.py` and `_node_helpers.py` are not
part of the sources under review (only their callers are).  Where their
behaviour is needed it is modelled from the specification, which states
that the binding layer forwards calls 1:1 to exported native functions;
each such definition carries a doc comment saying so.
-/

/-- A call into the vendor native library, as performed by the binding
layer.  Modelled from the spec: `_xlayer/xarena/_xnodemap.py` is not under
review here, and per the spec each of its `xNodeMap*` methods is a 1:1
pass-through to the exported `ArenaC` function of the same suffix, so one
event stands for that exported-function call with the argument shown.
The `fs*` events are the `harenac.acFeatureStream*` calls made directly
by `_xlayer/xarena/_xfeaturestream.py` (which is under review).  String
arguments stand for their UTF-8 encoding (`str.encode()` marshalling). -/
inductive NCall where
  | nmGetDeviceName
  | nmInvalidateNodes
  | nmPoll (elapsed_time_millisec : Int)
  | nmLock
  | nmUnlock
  | nmTryLock
  | nmGetNumNodes
  | nmGetNodeByIndex (index : Nat)
  | nmGetNode (name : String)
  | nmGetStringValue (node_name : String)
  | fsCreate (ac_nodemap_address : Nat)
  | fsSelect (feature_name : String)
  | fsWrite
  | fsWriteFileName (file_name : String)
  | fsRead
  | fsReadFileName (file_name : String)
  | fsDestroy
deriving Repr, DecidableEq

/-- A Python value, as far as the argument checks in `_nodemap.py`
distinguish them.  `int` covers Python `bool` as well (a subclass of
`int`, so `isinstance(x, int)` holds for it).  `other` carries the
`type(x).__name__` of any value of a type not otherwise listed. -/
inductive PyVal where
  | none
  | int (n : Int)
  | str (s : String)
  | list (xs : List PyVal)
  | tuple (xs : List PyVal)
  | other (type_name : String)
deriving Repr

/-- `type(x).__name__`, for the error-message formatting in `_nodemap.py`. -/
def pyTypeName : PyVal → String
  | PyVal.none => "NoneType"
  | PyVal.int _ => "int"
  | PyVal.str _ => "str"
  | PyVal.list _ => "list"
  | PyVal.tuple _ => "tuple"
  | PyVal.other tn => tn

/-- The exceptions raised by the embedded code. -/
inductive PyErr where
  | typeError (msg : String)
  | valueError (msg : String)
  | keyError (msg : String)
deriving Repr, DecidableEq

def isTypeError {α : Type} : Except PyErr α → Bool
  | Except.error (PyErr.typeError _) => true
  | _ => false

def isValueError {α : Type} : Except PyErr α → Bool
  | Except.error (PyErr.valueError _) => true
  | _ => false

def isKeyError {α : Type} : Except PyErr α → Bool
  | Except.error (PyErr.keyError _) => true
  | _ => false

/-- Result of an embedded operation: the native calls it performed, in
order, paired with its outcome (normal return or raised exception).
On an exception the trace holds the calls made before the raise. -/
abbrev Tr (α : Type) := List NCall × Except PyErr α

/-- Sequencing of traced computations: run `x`; on success feed its
result to `f` and append the native calls of both. -/
def trBind {α β : Type} (x : Tr α) (f : α → Tr β) : Tr β :=
  match x with
  | (tr, Except.error e) => (tr, Except.error e)
  | (tr, Except.ok a) =>
    match f a with
    | (tr2, r) => (tr ++ tr2, r)

/-- A single-quote character, for reproducing the quoting in the error
messages of `_nodemap.py`. -/
def squote : String := String.singleton (Char.ofNat 39)

/-- The oracle for what the native node-map returns: one field per
native accessor the embedded code consults.  A handle value `0` stands
for a NULL / falsy handle.  `closeMatches` models the Python standard
library's `difflib.get_close_matches(find_this, names, n=16, cutoff=0.15)`
(stdlib, not repository code), used only to decorate an error message. -/
structure NativeNodemap where
  hNodemap : Nat
  deviceName : String
  numNodes : Nat
  nodeByIndex : Nat → Nat
  nodeHandle : String → Nat
  isFeature : Nat → Bool
  nodeName : Nat → String
  stringValue : String → String
  closeMatches : String → List String → List String

/-- `Nodemap.DEFAULT_POLL_TIME_MILLISEC`, set in `Nodemap.__init__`
(`_nodemap.py` line 31). -/
def DEFAULT_POLL_TIME_MILLISEC : Int := 1000

/-- `Nodemap.__check_poll_parameter_elapsed_time_millisec`
(`_nodemap.py` lines 63-75): `None` is replaced by the default first,
then the `int` check raises `TypeError`, then the positivity check
raises `ValueError`. -/
def check_poll_parameter_elapsed_time_millisec (v : PyVal) : Except PyErr Int :=
  let v := match v with
    | PyVal.none => PyVal.int DEFAULT_POLL_TIME_MILLISEC
    | x => x
  match v with
  | PyVal.int n =>
    if n ≤ 0 then
      Except.error (PyErr.valueError "timeout must be > 0")
    else
      Except.ok n
  | x => Except.error (PyErr.typeError ("expected int instead of " ++ pyTypeName x))

/-- `Nodemap.poll` (`_nodemap.py` lines 77-105): validate the argument,
then forward it in a single `xNodeMapPoll` native call; returns `None`. -/
def poll (_st : NativeNodemap) (elapsed_time_millisec : PyVal) : Tr Unit :=
  match check_poll_parameter_elapsed_time_millisec elapsed_time_millisec with
  | Except.error e => ([], Except.error e)
  | Except.ok t => ([NCall.nmPoll t], Except.ok ())

/-- `Nodemap.lock` (`_nodemap.py` lines 107-113): one native call. -/
def lock (_st : NativeNodemap) : Tr Unit :=
  ([NCall.nmLock], Except.ok ())

/-- `Nodemap.unlock` (`_nodemap.py` lines 115-121): one native call. -/
def unlock (_st : NativeNodemap) : Tr Unit :=
  ([NCall.nmUnlock], Except.ok ())

/-- `Nodemap.invalidate_nodes` (`_nodemap.py` lines 56-61). -/
def invalidate_nodes (_st : NativeNodemap) : Tr Unit :=
  ([NCall.nmInvalidateNodes], Except.ok ())

/-- `Nodemap.device_name` property getter (`_nodemap.py` lines 39-42). -/
def get_device_name (st : NativeNodemap) : Tr String :=
  ([NCall.nmGetDeviceName], Except.ok st.deviceName)

/-- A `_node.Node` wrapper around a node handle (`_node.py` is not under
review; only the handle it wraps is needed here). -/
structure Node where
  hxnode : Nat
deriving Repr, DecidableEq

/-- Modelled from the spec:
`_node_helpers.cast_from_general_node_to_specific_node_type` is not under
review (`_node_helpers.py` is absent from the sources).  The spec states
the binding layer forwards calls 1:1 with no logic of its own, so the
cast is modelled as wrapping the same handle into the specific-node
object, performing no further native node-map calls. -/
structure SpecificNode where
  handle : Nat
deriving Repr, DecidableEq

def cast_from_general_node_to_specific_node_type (node_ : Node) : SpecificNode :=
  SpecificNode.mk node_.hxnode

/-- Models Python's `sorted` on a list of strings (insertion sort by the
string order; the result is the ascending reordering of the input). -/
def insertSorted (s : String) : List String → List String
  | [] => [s]
  | t :: rest => if decide (s ≤ t) then s :: t :: rest else t :: insertSorted s rest

def pySorted (l : List String) : List String :=
  l.foldr insertSorted []

/-- One iteration of the `for node_index in range(num_of_nodes)` loop of
`Nodemap.__get_feature_names` (`_nodemap.py` lines 138-144): fetch the
node at this index (one native call), and append its name to the
accumulated list if it is a feature node.  The `is_feature` / `name`
attribute reads go through `_node.Node` (absent from the sources) and
are modelled as reads of the native node-map oracle for the fetched
handle. -/
def feature_names_step (st : NativeNodemap) (acc : List NCall × List String)
    (node_index : Nat) : List NCall × List String :=
  let hxnode := st.nodeByIndex node_index
  let node_ := Node.mk hxnode
  if st.isFeature node_.hxnode then
    let specific_node := cast_from_general_node_to_specific_node_type node_
    (acc.1 ++ [NCall.nmGetNodeByIndex node_index],
     acc.2 ++ [st.nodeName specific_node.handle])
  else
    (acc.1 ++ [NCall.nmGetNodeByIndex node_index], acc.2)

/-- `Nodemap.__get_feature_names` (`_nodemap.py` lines 133-146), the
getter of the `feature_names` property: read the node count, then fetch
every node by index, keep the names of the feature nodes, and sort. -/
def get_feature_names (st : NativeNodemap) : List NCall × List String :=
  let num_of_nodes := st.numNodes
  let r := (List.range num_of_nodes).foldl (feature_names_step st)
    ([NCall.nmGetNumNodes], [])
  (r.1, pySorted r.2)

/-- Python `repr` of a list of strings, as interpolated into the
suggestion error message by `Nodemap.__get_node`. -/
def pyStrListRepr (l : List String) : String :=
  "[" ++ String.intercalate ", " (l.map (fun s => squote ++ s ++ squote)) ++ "]"

/-- `Nodemap.__find_closest_matches_to_node_name` (`_nodemap.py` lines
278-282): reads `feature_names` (re-enumerating the node map) and runs
`difflib.get_close_matches` over the result. -/
def find_closest_matches_to_node_name (st : NativeNodemap) (find_this : String) :
    List NCall × List String :=
  let all_nodes_names := get_feature_names st
  (all_nodes_names.1, st.closeMatches find_this all_nodes_names.2)

/-- `Nodemap.__get_node` (`_nodemap.py` lines 255-276): one
`xNodeMapGetNode` native call; on a NULL handle, look up suggestions and
raise `ValueError`; otherwise wrap the handle and return it. -/
def get_node_of_name (st : NativeNodemap) (node_name : String) : Tr SpecificNode :=
  let hxnode := st.nodeHandle node_name
  if hxnode = 0 then
    let pn := find_closest_matches_to_node_name st node_name
    if pn.2.isEmpty then
      (NCall.nmGetNode node_name :: pn.1,
       Except.error (PyErr.valueError
         (squote ++ node_name ++ squote ++ " node does not exist " ++
          "in this nodemap. Make sure the node name " ++
          "is correct or check another nodemap\n")))
    else
      (NCall.nmGetNode node_name :: pn.1,
       Except.error (PyErr.valueError
         (squote ++ node_name ++ squote ++ " node does not exist in " ++
          "this nodemap\n" ++ "(some suggestions):\n" ++ pyStrListRepr pn.2)))
  else
    ([NCall.nmGetNode node_name],
     Except.ok (cast_from_general_node_to_specific_node_type (Node.mk hxnode)))

/-- `Nodemap.__getitem__` (`_nodemap.py` lines 165-173): a `str` key is
looked up via `__get_node` with `ValueError` rebranded as `KeyError`
(same message); any other key raises `TypeError`. -/
def nodemap_getitem (st : NativeNodemap) (key : PyVal) : Tr SpecificNode :=
  match key with
  | PyVal.str s =>
    match get_node_of_name st s with
    | (tr, Except.error (PyErr.valueError m)) => (tr, Except.error (PyErr.keyError m))
    | r => r
  | k => ([], Except.error (PyErr.typeError ("expected str instead of " ++ pyTypeName k)))

/-- Result of `Nodemap.get_node`: a single node for a `str` argument, an
insertion-ordered dict for a `list`/`tuple` argument. -/
inductive GetNodeResult where
  | node (n : SpecificNode)
  | dict (d : List (String × SpecificNode))
deriving Repr, DecidableEq

/-- Insertion into a Python dict: overwrite in place if the key exists,
else append. -/
def pyDictInsert (d : List (String × SpecificNode)) (k : String) (v : SpecificNode) :
    List (String × SpecificNode) :=
  if d.any (fun p => p.1 = k) then
    d.map (fun p => if p.1 = k then (k, v) else p)
  else
    d ++ [(k, v)]

/-- `Nodemap.__check__get_nodes_as_dict_input_parameter_nodes_names`
(`_nodemap.py` lines 248-253): raise `ValueError` on the first non-`str`
element (the message quotes the container's type name). -/
def check_get_nodes_as_dict_input (container_type_name : String) :
    List PyVal → Except PyErr Unit
  | [] => Except.ok ()
  | PyVal.str _ :: rest => check_get_nodes_as_dict_input container_type_name rest
  | _ :: _ =>
    Except.error (PyErr.valueError
      ("expected list/tuple str elements instead of " ++ container_type_name))

/-- The names of a checked element list (defined for `str` elements). -/
def pyStrElems : List PyVal → List String
  | [] => []
  | PyVal.str s :: rest => s :: pyStrElems rest
  | _ :: rest => pyStrElems rest

/-- The dict-building loop of `Nodemap.__get_nodes_as_dict`
(`_nodemap.py` lines 243-246). -/
def get_nodes_dict_loop (st : NativeNodemap) (d : List (String × SpecificNode)) :
    List String → Tr (List (String × SpecificNode))
  | [] => ([], Except.ok d)
  | node_name :: rest =>
    trBind (get_node_of_name st node_name)
      (fun n => get_nodes_dict_loop st (pyDictInsert d node_name n) rest)

/-- `Nodemap.__get_nodes_as_dict` (`_nodemap.py` lines 238-246): check
all elements are strings, then look each one up. -/
def get_nodes_as_dict (st : NativeNodemap) (container_type_name : String)
    (nodes_names : List PyVal) : Tr (List (String × SpecificNode)) :=
  match check_get_nodes_as_dict_input container_type_name nodes_names with
  | Except.error e => ([], Except.error e)
  | Except.ok () => get_nodes_dict_loop st [] (pyStrElems nodes_names)

/-- `Nodemap.get_node` (`_nodemap.py` lines 175-236): `list`/`tuple`
arguments produce a dict, `str` a single node, anything else raises
`ValueError`. -/
def get_node (st : NativeNodemap) (nodes_names : PyVal) : Tr GetNodeResult :=
  match nodes_names with
  | PyVal.list xs =>
    trBind (get_nodes_as_dict st "list" xs) (fun d => ([], Except.ok (GetNodeResult.dict d)))
  | PyVal.tuple xs =>
    trBind (get_nodes_as_dict st "tuple" xs) (fun d => ([], Except.ok (GetNodeResult.dict d)))
  | PyVal.str s =>
    trBind (get_node_of_name st s) (fun n => ([], Except.ok (GetNodeResult.node n)))
  | v =>
    ([], Except.error (PyErr.valueError
      ("expected list, tuple , or str " ++ "instead of " ++ pyTypeName v)))

/-- `_xFeaturestream.__init__` together with `_xFeatureStreamCreate`
(`_xfeaturestream.py` lines 24-46): a falsy (NULL/None) node-map address
raises `TypeError` before any native call; otherwise one
`acFeatureStreamCreate` call is made.  The created feature-stream handle
is opaque; it is modelled by the node-map address that produced it. -/
def xFeaturestream_create (ac_nodemap_address : Nat) : Tr Nat :=
  if ac_nodemap_address = 0 then
    ([], Except.error (PyErr.typeError "ac_nodemap_address is None"))
  else
    ([NCall.fsCreate ac_nodemap_address], Except.ok ac_nodemap_address)

/-- `_xFeaturestream.xFeatureStreamSelect` (`_xfeaturestream.py` lines
54-62): encode the name and make one `acFeatureStreamSelect` call. -/
def xFeatureStreamSelect (feature_name : String) : Tr Unit :=
  ([NCall.fsSelect feature_name], Except.ok ())

/-- `_xFeaturestream.xFeatureStreamWrite` (lines 64-69). -/
def xFeatureStreamWrite : Tr Unit :=
  ([NCall.fsWrite], Except.ok ())

/-- `_xFeaturestream.xFeatureStreamWriteFileName` (lines 71-79): encode
the file name and make one `acFeatureStreamWriteFileName` call. -/
def xFeatureStreamWriteFileName (file_name : String) : Tr Unit :=
  ([NCall.fsWriteFileName file_name], Except.ok ())

/-- `_xFeaturestream.xFeatureStreamRead` (lines 81-86). -/
def xFeatureStreamRead : Tr Unit :=
  ([NCall.fsRead], Except.ok ())

/-- `_xFeaturestream.xFeatureStreamReadFileName` (lines 88-96): encode
the file name and make one `acFeatureStreamReadFileName` call. -/
def xFeatureStreamReadFileName (file_name : String) : Tr Unit :=
  ([NCall.fsReadFileName file_name], Except.ok ())

/-- `Nodemap.write_streamable_node_values_to` (`_nodemap.py` lines
284-327).  A `None` file name is replaced by a name computed from device
strings (for device node maps) or from the node-map type name; a
non-`str`, non-`None` argument raises `TypeError`; then a feature stream
is created on the node-map handle and one write-file-name call is made.
(`_xFeaturestream.__del__` later performs only `acFeatureStreamDestroy`,
at garbage-collection time; it is not part of this operation.) -/
def write_streamable_node_values_to (st : NativeNodemap) (nodemap_type_name : String)
    (file_name : PyVal) : Tr Unit :=
  match file_name with
  | PyVal.none =>
    if nodemap_type_name.containsSubstr "device_nodemap" ||
        nodemap_type_name.containsSubstr "device_tl_device_nodemap" then
      let device_model_name := st.stringValue "DeviceModelName"
      let device_serial_number := st.stringValue "DeviceSerialNumber"
      let device_user_id := st.stringValue "DeviceUserID"
      let fname := device_serial_number ++ "_" ++ device_model_name ++ "_" ++
        device_user_id ++ "_" ++ nodemap_type_name ++ ".txt"
      trBind ([NCall.nmGetStringValue "DeviceModelName",
               NCall.nmGetStringValue "DeviceSerialNumber",
               NCall.nmGetStringValue "DeviceUserID"], Except.ok ())
        (fun _ => trBind (xFeaturestream_create st.hNodemap)
          (fun _ => xFeatureStreamWriteFileName fname))
    else
      trBind (xFeaturestream_create st.hNodemap)
        (fun _ => xFeatureStreamWriteFileName (nodemap_type_name ++ ".txt"))
  | PyVal.str s =>
    trBind (xFeaturestream_create st.hNodemap)
      (fun _ => xFeatureStreamWriteFileName s)
  | v =>
    ([], Except.error (PyErr.typeError ("str " ++ "expected instead of " ++ pyTypeName v)))

/-- `Nodemap.read_streamable_node_values_from` (`_nodemap.py` lines
329-350): a non-`str` argument (including `None`) raises `TypeError`;
otherwise a feature stream is created and one read-file-name call is
made with the caller's file name. -/
def read_streamable_node_values_from (st : NativeNodemap) (file_name : PyVal) : Tr Unit :=
  match file_name with
  | PyVal.str s =>
    trBind (xFeaturestream_create st.hNodemap)
      (fun _ => xFeatureStreamReadFileName s)
  | v =>
    ([], Except.error (PyErr.typeError ("str " ++ "expected instead of " ++ pyTypeName v)))

/-- The file names carried by `acFeatureStreamWriteFileName` calls in a
trace. -/
def writeFileNameArgs (tr : List NCall) : List String :=
  tr.filterMap (fun e =>
    match e with
    | NCall.fsWriteFileName f => some f
    | _ => Option.none)

/-- The file names carried by `acFeatureStreamReadFileName` calls in a
trace. -/
def readFileNameArgs (tr : List NCall) : List String :=
  tr.filterMap (fun e =>
    match e with
    | NCall.fsReadFileName f => some f
    | _ => Option.none)

/-- Python's `str.split` with the single-character separator used in
`py_force_ip.py`: split at every occurrence of the character, keeping
empty fields. -/
def splitCharList (sep : Char) : List Char → List (List Char)
  | [] => [[]]
  | c :: rest =>
    if c = sep then [] :: splitCharList sep rest
    else
      match splitCharList sep rest with
      | h :: t => (c :: h) :: t
      | [] => [[c]]

/-- `ip.split` with separator `.` as in `py_force_ip.py` line 29. -/
def pySplitDot (s : String) : List String :=
  (splitCharList (Char.ofNat 46) s.data).map String.mk

/-- The value of a non-empty all-digit string, as read by Python's
`int`. -/
def pyIntDigits (s : String) : Option Nat :=
  if s.isEmpty then Option.none
  else if s.data.all Char.isDigit then
    some (s.data.foldl (fun acc c => acc * 10 + (c.toNat - 48)) 0)
  else Option.none

/-- Python's `int(s)` on a decimal string: an optional sign followed by
digits.  (Python additionally tolerates surrounding whitespace and
underscore digit separators; the inputs considered here use neither.) -/
def pyInt (s : String) : Option Int :=
  match s.data with
  | c :: rest =>
    if c = Char.ofNat 45 then (pyIntDigits (String.mk rest)).map (fun n => -(n : Int))
    else if c = Char.ofNat 43 then (pyIntDigits (String.mk rest)).map (fun n => (n : Int))
    else (pyIntDigits s).map (fun n => (n : Int))
  | [] => Option.none

/-- `add_one_to_ip` (`examples/py_force_ip.py` lines 27-34): split the
address on dots into exactly four octet strings (any other field count
makes the tuple unpacking raise, modelled as `none`), replace the last
octet by `1` if it is the string `254` and by `str(int(octet3) + 1)`
otherwise (a non-numeric last octet makes `int` raise, modelled as
`none`), and join the four fields back with dots. -/
def add_one_to_ip (ip : String) : Option String :=
  match pySplitDot ip with
  | [octet0, octet1, octet2, octet3] =>
    let new_octet3 : Option String :=
      if octet3 = "254" then some "1"
      else (pyInt octet3).map (fun n => toString (n + 1))
    new_octet3.map (fun o3 => octet0 ++ "." ++ octet1 ++ "." ++ octet2 ++ "." ++ o3)
  | _ => Option.none

/-- `DELTA_TIME_NS` (`examples/py_scheduled_action_commands.py` line 38). -/
def DELTA_TIME_NS : Int := 1000000000

/-- The execution time that `schedule_action_command`
(`examples/py_scheduled_action_commands.py` lines 295-318) writes into
the `ActionCommandExecuteTime` node: the `PtpDataSetLatchValue` read
from the first device, plus `DELTA_TIME_NS`. -/
def scheduled_action_execute_time (ptp_data_set_latch_value : Int) : Int :=
  ptp_data_set_latch_value + DELTA_TIME_NS

/-- The per-pass body of the wait loop in `synchronize_cameras`
(`examples/py_scheduled_action_commands.py` lines 262-292), walking the
devices' `PtpStatus` values with the running `master_found` flag and
returning the final `(master_found, restart_sync_check)` pair (the
`for` loop with its `break`s). -/
def ptp_sync_pass : List String → Bool → Bool × Bool
  | [], master_found => (master_found, false)
  | ptp_status :: rest, master_found =>
    if ptp_status = "Master" then
      if master_found then (master_found, true)
      else ptp_sync_pass rest true
    else if ptp_status ≠ "Slave" then (master_found, true)
    else ptp_sync_pass rest master_found

/-- The exit condition of the `while True` wait loop in
`synchronize_cameras`: the pass found a single master and never asked
for a restart (`if not restart_sync_check and master_found: break`). -/
def ptp_sync_complete (statuses : List String) : Bool :=
  let r := ptp_sync_pass statuses false
  !r.2 && r.1

/-- A buffer-lifecycle operation performed by an example script.  Buffer
ids are labels for the distinct buffer objects a script holds: ids used
in `getBuffer`/`requeueBuffer` label buffers handed out by the SDK, ids
introduced by `bufferCopy`/`bufferConvert` label the new buffers those
`BufferFactory` calls allocate.  `bufferDestroy` is a
`BufferFactory.destroy` call. -/
inductive BufEvent where
  | startStream (dev : Nat)
  | getBuffer (dev : Nat) (ids : List Nat)
  | requeueBuffer (dev : Nat) (ids : List Nat)
  | stopStream (dev : Nat)
  | bufferCopy (src : Nat) (copyId : Nat)
  | bufferConvert (src : Nat) (copyId : Nat)
  | bufferDestroy (id : Nat)
deriving Repr, DecidableEq

/-- Outstanding SDK buffers: (device, buffer id) pairs acquired by
`get_buffer` and not yet requeued. -/
abbrev Outstanding := List (Nat × Nat)

/-- Requeue a list of buffer ids on a device: each id must be
outstanding on that device, and is removed. -/
def removeIds (dev : Nat) : Outstanding → List Nat → Option Outstanding
  | out, [] => some out
  | out, i :: rest =>
    if out.contains (dev, i) then removeIds dev (out.erase (dev, i)) rest
    else Option.none

/-- One step of the requeue-discipline check (`none` = violated):
`get_buffer` makes its buffers outstanding, `requeue_buffer` hands
outstanding buffers back on the same device, and `stop_stream` requires
that no buffer of that device is still outstanding. -/
def rqStep (o : Option Outstanding) (e : BufEvent) : Option Outstanding :=
  match o with
  | Option.none => Option.none
  | some out =>
    match e with
    | BufEvent.startStream _ => some out
    | BufEvent.getBuffer d ids => some (out ++ ids.map (fun i => (d, i)))
    | BufEvent.requeueBuffer d ids => removeIds d out ids
    | BufEvent.stopStream d =>
      if out.any (fun p => p.1 = d) then Option.none else some out
    | _ => some out

/-- A trace respects the requeue discipline: every buffer obtained from
`get_buffer` is requeued on the same device before that device's stream
is stopped, and none is left outstanding at the end. -/
def requeueDiscipline (tr : List BufEvent) : Bool :=
  match tr.foldl rqStep (some []) with
  | some [] => true
  | _ => false

/-- One step of the destroy-discipline check (`none` = violated):
`BufferFactory.destroy` may only be applied to a buffer the script
itself allocated through `BufferFactory.copy`/`BufferFactory.convert`,
never to a buffer handed out by `get_buffer`. -/
def ddStep (o : Option (List Nat)) (e : BufEvent) : Option (List Nat) :=
  match o with
  | Option.none => Option.none
  | some created =>
    match e with
    | BufEvent.bufferCopy _ c => some (c :: created)
    | BufEvent.bufferConvert _ c => some (c :: created)
    | BufEvent.bufferDestroy i =>
      if created.contains i then some created else Option.none
    | _ => some created

/-- A trace destroys only buffers it created through `BufferFactory`. -/
def destroyDiscipline (tr : List BufEvent) : Bool :=
  (tr.foldl ddStep (some [])).isSome

/-- Whether an event is a `BufferFactory.destroy` call. -/
def isDestroyEvent : BufEvent → Bool
  | BufEvent.bufferDestroy _ => true
  | _ => false

/-- Whether a trace contains a `BufferFactory.destroy` call at all. -/
def containsDestroy (tr : List BufEvent) : Bool :=
  tr.any isDestroyEvent

/-- A get/requeue pair acquiring and returning one buffer, as produced
by one iteration of a `get_buffer` / `requeue_buffer` loop on device
`d`; the loop index labels the buffer. -/
def getRequeueBlock (d : Nat) (i : Nat) : List BufEvent :=
  [BufEvent.getBuffer d [i], BufEvent.requeueBuffer d [i]]

/-- Buffer lifecycle of `examples/py_simple_acquisition.py` (lines
85-91): inside `with device.start_stream()`, one buffer is acquired and
requeued; the context manager stops the stream. -/
def py_simple_acquisition_buffers : List BufEvent :=
  [BufEvent.startStream 0, BufEvent.getBuffer 0 [0],
   BufEvent.requeueBuffer 0 [0], BufEvent.stopStream 0]

/-- Buffer lifecycle of `examples/py_acquisition_rapid.py` (lines
184-232): `num_buffers = 500` buffers acquired as one list, requeued as
one list, stream stopped. -/
def py_acquisition_rapid_buffers : List BufEvent :=
  [BufEvent.startStream 0, BufEvent.getBuffer 0 (List.range 500),
   BufEvent.requeueBuffer 0 (List.range 500), BufEvent.stopStream 0]

/-- Buffer lifecycle of `examples/py_acquisition_sensor_binning.py`
(lines 107-132): 30 buffers acquired as a list, requeued, stream
stopped. -/
def py_acquisition_sensor_binning_buffers : List BufEvent :=
  [BufEvent.startStream 0, BufEvent.getBuffer 0 (List.range 30),
   BufEvent.requeueBuffer 0 (List.range 30), BufEvent.stopStream 0]

/-- Buffer lifecycle of the per-device acquisition thread
`get_multiple_image_buffers` of `examples/py_acquisition_multi_device.py`
(lines 81-101), for the device `d` the thread was given:
`NUMBER_OF_BUFFERS = 25` get/requeue pairs, then stop.  Each thread
touches only its own device. -/
def py_acquisition_multi_device_buffers (d : Nat) : List BufEvent :=
  (BufEvent.startStream d :: List.flatten ((List.range 25).map (getRequeueBlock d)))
    ++ [BufEvent.stopStream d]

/-- Buffer lifecycle of `examples/py_exposure.py` (lines 134-144):
`num_images = 25` get/requeue pairs, then stop. -/
def py_exposure_buffers : List BufEvent :=
  (BufEvent.startStream 0 :: List.flatten ((List.range 25).map (getRequeueBlock 0)))
    ++ [BufEvent.stopStream 0]

/-- Buffer lifecycle of `examples/py_exposure_long.py` (lines 144-153):
`num_images = 1` get/requeue pair, then stop. -/
def py_exposure_long_buffers : List BufEvent :=
  (BufEvent.startStream 0 :: List.flatten ((List.range 1).map (getRequeueBlock 0)))
    ++ [BufEvent.stopStream 0]

/-- One iteration of the acquisition loop of
`examples/py_exposure_forhdr.py` (lines 176-236): six buffers acquired
(pre-high, high, pre-mid, mid, pre-low, low → ids `6i..6i+5`), the
high/mid/low ones copied with `BufferFactory.copy` (copies labelled
`100+3i..100+3i+2`, in `hdr_images` append order), then all six
requeued. -/
def py_exposure_forhdr_iteration (i : Nat) : List BufEvent :=
  [BufEvent.getBuffer 0 [6*i], BufEvent.getBuffer 0 [6*i+1],
   BufEvent.getBuffer 0 [6*i+2], BufEvent.getBuffer 0 [6*i+3],
   BufEvent.getBuffer 0 [6*i+4], BufEvent.getBuffer 0 [6*i+5],
   BufEvent.bufferCopy (6*i+1) (100+3*i), BufEvent.bufferCopy (6*i+3) (100+3*i+1),
   BufEvent.bufferCopy (6*i+5) (100+3*i+2),
   BufEvent.requeueBuffer 0 [6*i], BufEvent.requeueBuffer 0 [6*i+1],
   BufEvent.requeueBuffer 0 [6*i+2], BufEvent.requeueBuffer 0 [6*i+3],
   BufEvent.requeueBuffer 0 [6*i+4], BufEvent.requeueBuffer 0 [6*i+5]]

/-- Buffer lifecycle of `examples/py_exposure_forhdr.py` (lines
170-249): `num_images = 5` loop iterations, stream stop, then the
destroy loop over the 15 copies in `hdr_images`. -/
def py_exposure_forhdr_buffers : List BufEvent :=
  (BufEvent.startStream 0 :: List.flatten ((List.range 5).map py_exposure_forhdr_iteration))
    ++ [BufEvent.stopStream 0]
    ++ (List.range 15).map (fun j => BufEvent.bufferDestroy (100+j))

/-- Buffer lifecycle of `examples/py_lut.py` (lines 61-80): one buffer
acquired and requeued inside `with device.start_stream()`. -/
def py_lut_buffers : List BufEvent :=
  [BufEvent.startStream 0, BufEvent.getBuffer 0 [0],
   BufEvent.requeueBuffer 0 [0], BufEvent.stopStream 0]

/-- Buffer lifecycle of `examples/py_trigger.py` (lines 124-165): one
triggered buffer acquired and requeued, then stop. -/
def py_trigger_buffers : List BufEvent :=
  [BufEvent.startStream 0, BufEvent.getBuffer 0 [0],
   BufEvent.requeueBuffer 0 [0], BufEvent.stopStream 0]

/-- Buffer lifecycle of `examples/py_trigger_overlappingtrigger.py`
(lines 185-233): after the triggering loop (no buffer operations),
`number_of_buffers = 30` get/requeue pairs, then stop. -/
def py_trigger_overlappingtrigger_buffers : List BufEvent :=
  (BufEvent.startStream 0 :: List.flatten ((List.range 30).map (getRequeueBlock 0)))
    ++ [BufEvent.stopStream 0]

/-- Buffer lifecycle of `examples/py_trigger_waitfornextleader.py`
(lines 139-216): `NUMBER_OF_BUFFERS = 10` get/requeue pairs inside
`with device.start_stream(...)`. -/
def py_trigger_waitfornextleader_buffers : List BufEvent :=
  (BufEvent.startStream 0 :: List.flatten ((List.range 10).map (getRequeueBlock 0)))
    ++ [BufEvent.stopStream 0]

/-- One iteration of the display loop of `examples/py_live_stream.py`
(lines 112-147): acquire a buffer, copy it with `BufferFactory.copy`
(copy labelled `100+i`), requeue the device buffer, destroy the copy. -/
def py_live_stream_iteration (i : Nat) : List BufEvent :=
  [BufEvent.getBuffer 0 [i], BufEvent.bufferCopy i (100+i),
   BufEvent.requeueBuffer 0 [i], BufEvent.bufferDestroy (100+i)]

/-- Buffer lifecycle of `examples/py_live_stream.py` (lines 108-151)
when the user presses escape after `n` iterations. -/
def py_live_stream_buffers (n : Nat) : List BufEvent :=
  (BufEvent.startStream 0 :: List.flatten ((List.range n).map py_live_stream_iteration))
    ++ [BufEvent.stopStream 0]

/-- Buffer lifecycle of `examples/py_save.py` (lines 65-122): one buffer
acquired; `save` converts it with `BufferFactory.convert` (copy labelled
`100`) and destroys the converted copy; then the device buffer is
requeued and the stream stopped. -/
def py_save_buffers : List BufEvent :=
  [BufEvent.startStream 0, BufEvent.getBuffer 0 [0],
   BufEvent.bufferConvert 0 100, BufEvent.bufferDestroy 100,
   BufEvent.requeueBuffer 0 [0], BufEvent.stopStream 0]

/-- Buffer lifecycle of `examples/py_save_file_name_pattern.py` (lines
55-77, called with `NUM_IMAGES = 25`): 25 get/save/requeue iterations
inside `with device.start_stream(...)`. -/
def py_save_file_name_pattern_buffers : List BufEvent :=
  (BufEvent.startStream 0 :: List.flatten ((List.range 25).map (getRequeueBlock 0)))
    ++ [BufEvent.stopStream 0]

/-- Buffer lifecycle of `examples/py_save_writer_advanced.py` (lines
96-157): 100 get/save/requeue iterations inside
`with device.start_stream()`. -/
def py_save_writer_advanced_buffers : List BufEvent :=
  (BufEvent.startStream 0 :: List.flatten ((List.range 100).map (getRequeueBlock 0)))
    ++ [BufEvent.stopStream 0]

/-- Buffer lifecycle of the acquisition thread
`get_multiple_image_buffers` of `examples/py_save_multithreading.py`
(lines 59-87): 30 buffers acquired as a list, each copied onto the
queue with `BufferFactory.copy` (copies labelled `100+i`), then the 30
device buffers requeued as a list and the stream stopped.  The saving
thread only writes the copies to disk; no buffer operation occurs
there. -/
def py_save_multithreading_buffers : List BufEvent :=
  ([BufEvent.startStream 0, BufEvent.getBuffer 0 (List.range 30)]
    ++ (List.range 30).map (fun i => BufEvent.bufferCopy i (100+i)))
    ++ [BufEvent.requeueBuffer 0 (List.range 30), BufEvent.stopStream 0]

/-- Buffer lifecycle of
`examples/py_callback_multithreaded_buffer_callbacks.py` (lines 84-97):
`num_buffers = 25` get/requeue pairs, then stop. -/
def py_callback_multithreaded_buffer_callbacks_buffers : List BufEvent :=
  (BufEvent.startStream 0 :: List.flatten ((List.range 25).map (getRequeueBlock 0)))
    ++ [BufEvent.stopStream 0]

/-- Buffer lifecycle of `examples/py_chunkdata.py` (lines 104-153): 10
chunk-data buffers acquired as a list, requeued as a list, stream
stopped by the context manager. -/
def py_chunkdata_buffers : List BufEvent :=
  [BufEvent.startStream 0, BufEvent.getBuffer 0 (List.range 10),
   BufEvent.requeueBuffer 0 (List.range 10), BufEvent.stopStream 0]

/-- Buffer lifecycle of `examples/py_chunkdata_crc_validation.py` (lines
91-132): 10 chunk-data buffers acquired as a list, validated, requeued
as a list, stream stopped by the context manager. -/
def py_chunkdata_crc_validation_buffers : List BufEvent :=
  [BufEvent.startStream 0, BufEvent.getBuffer 0 (List.range 10),
   BufEvent.requeueBuffer 0 (List.range 10), BufEvent.stopStream 0]

/-- Buffer lifecycle of the acquisition thread of
`examples/py_enumeration_handlingdisconnections.py` (lines 132-158):
each connection session starts the stream and acquires/requeues buffers
one at a time until the image budget is reached or the device
disconnects (a `get_buffer` timeout raises before any buffer is held);
after the last session the stream is stopped.  `sessions` lists how many
buffers each session acquired; buffers are labelled by their index
within the session. -/
def py_enumeration_handlingdisconnections_buffers (sessions : List Nat) : List BufEvent :=
  List.flatten (sessions.map (fun m =>
    BufEvent.startStream 0 :: List.flatten ((List.range m).map (getRequeueBlock 0))))
    ++ [BufEvent.stopStream 0]

/-- Buffer lifecycle of `examples/py_scheduled_action_commands.py`
(lines 320-333 and 364-366) for `k` devices: every device's stream is
started, then `schedule_action_command` acquires and requeues one
buffer per device (no explicit stop; `system.destroy_device()` tears
the streams down inside the SDK). -/
def py_scheduled_action_commands_buffers (k : Nat) : List BufEvent :=
  (List.range k).map BufEvent.startStream
    ++ List.flatten ((List.range k).map (fun d =>
        [BufEvent.getBuffer d [d], BufEvent.requeueBuffer d [d]]))

/-- Buffer lifecycle of `examples/py_acquisition_single_buffer_gui.py`
(lines 70-145 and 182-199): one buffer acquired; `show_image` converts
it to BGR8 — when the buffer's pixel format is already BGR8 the
"conversion" returns the device buffer itself, otherwise
`BufferFactory.convert` allocates a copy (labelled `100`) — and then
destroys the conversion result; finally the device buffer is requeued
and the stream stopped. -/
def py_acquisition_single_buffer_gui_buffers (already_bgr8 : Bool) : List BufEvent :=
  [BufEvent.startStream 0, BufEvent.getBuffer 0 [0]]
    ++ (if already_bgr8 then [BufEvent.bufferDestroy 0]
        else [BufEvent.bufferConvert 0 100, BufEvent.bufferDestroy 100])
    ++ [BufEvent.requeueBuffer 0 [0], BufEvent.stopStream 0]

/-- A concurrency object created by code in this repository (as opposed
to concurrency living inside the wrapped native SDK): a Python
`threading.Thread`, `threading.Lock`, `threading.Condition`,
`queue.Queue`, or `multiprocessing.Value`. -/
inductive ConcurrencyPrim where
  | threadCreate
  | lockCreate
  | conditionCreate
  | queueCreate
  | sharedValueCreate
deriving Repr, DecidableEq

/-- The concurrency objects created by each `arena_api` package module
under review, transcribed from the sources: none of
`__init__.py`, `_nodemap.py`, `version.py`, `_xlayer/xarena/arenac.py`,
`_xlayer/xarena/_xfeaturestream.py`, `_xlayer/xsave/_xglobal.py`
imports or instantiates any threading, queue, or shared-state
primitive. -/
def package_module_concurrency : List (String × List ConcurrencyPrim) :=
  [("arena_api/__init__.py", []),
   ("arena_api/_nodemap.py", []),
   ("arena_api/version.py", []),
   ("arena_api/_xlayer/xarena/arenac.py", []),
   ("arena_api/_xlayer/xarena/_xfeaturestream.py", []),
   ("arena_api/_xlayer/xsave/_xglobal.py", [])]

/-- The concurrency objects created by each example script, transcribed
from the sources: `py_acquisition_multi_device.py` builds a
`threading.Lock` (in `safe_print`, line 64) and one `threading.Thread`
per device (line 144); `py_callback_multithreaded_buffer_callbacks.py`
likewise (lines 73 and 139); `py_enumeration_handlingdisconnections.py`
builds a `threading.Condition` (line 202) and a `threading.Thread`
(line 204); `py_save_multithreading.py` builds a
`multiprocessing.Value` (line 126), a `queue.Queue` (line 135) and a
`threading.Thread` (line 136).  No other example imports `threading`,
`queue`, or `multiprocessing`. -/
def example_concurrency : List (String × List ConcurrencyPrim) :=
  [("py_acquisition_multi_device.py",
     [ConcurrencyPrim.lockCreate, ConcurrencyPrim.threadCreate]),
   ("py_acquisition_rapid.py", []),
   ("py_acquisition_sensor_binning.py", []),
   ("py_acquisition_single_buffer_gui.py", []),
   ("py_callback_multithreaded_buffer_callbacks.py",
     [ConcurrencyPrim.lockCreate, ConcurrencyPrim.threadCreate]),
   ("py_callback_on_buffer.py", []),
   ("py_callback_on_node_change.py", []),
   ("py_callback_polling.py", []),
   ("py_chunkdata.py", []),
   ("py_chunkdata_crc_validation.py", []),
   ("py_enumeration.py", []),
   ("py_enumeration_handlingdisconnections.py",
     [ConcurrencyPrim.conditionCreate, ConcurrencyPrim.threadCreate]),
   ("py_explore_nodemaps.py", []),
   ("py_explore_nodes.py", []),
   ("py_explore_nodetypes.py", []),
   ("py_exposure.py", []),
   ("py_exposure_forhdr.py", []),
   ("py_exposure_long.py", []),
   ("py_force_ip.py", []),
   ("py_ipconfig_manual.py", []),
   ("py_live_stream.py", []),
   ("py_lut.py", []),
   ("py_save.py", []),
   ("py_save_file_name_pattern.py", []),
   ("py_save_multithreading.py",
     [ConcurrencyPrim.sharedValueCreate, ConcurrencyPrim.queueCreate,
      ConcurrencyPrim.threadCreate]),
   ("py_save_writer_advanced.py", []),
   ("py_scheduled_action_commands.py", []),
   ("py_simple_acquisition.py", []),
   ("py_streamables.py", []),
   ("py_trigger.py", []),
   ("py_trigger_overlappingtrigger.py", []),
   ("py_trigger_waitfornextleader.py", []),
   ("py_usersets.py", [])]

/-- The example files that create concurrency objects. -/
def threaded_example_names : List String :=
  ["py_acquisition_multi_device.py",
   "py_callback_multithreaded_buffer_callbacks.py",
   "py_enumeration_handlingdisconnections.py",
   "py_save_multithreading.py"]

/-- `isinstance(v, int)` (true for Python `bool` values as well). -/
def pyIsInt : PyVal → Bool
  | PyVal.int _ => true
  | _ => false

/-- `v is None`. -/
def pyIsNone : PyVal → Bool
  | PyVal.none => true
  | _ => false

/-- `isinstance(v, str)`. -/
def pyIsStr : PyVal → Bool
  | PyVal.str _ => true
  | _ => false

/-- `isinstance(v, list)`. -/
def pyIsList : PyVal → Bool
  | PyVal.list _ => true
  | _ => false

/-- `isinstance(v, tuple)`. -/
def pyIsTuple : PyVal → Bool
  | PyVal.tuple _ => true
  | _ => false

/-- A concrete native node map used to instantiate the theorems: two
nodes, a feature node named `Width` with handle 5, and no other named
nodes. -/
def sampleState : NativeNodemap where
  hNodemap := 1
  deviceName := "sample_device"
  numNodes := 2
  nodeByIndex := fun _ => 5
  nodeHandle := fun s => if s = "Width" then 5 else 0
  isFeature := fun _ => true
  nodeName := fun _ => "Width"
  stringValue := fun _ => "value"
  closeMatches := fun _ _ => []

/-! Helper lemmas (shared by the claim theorems below). -/

/-- The native-call trace of the `__get_feature_names` loop: one
`xNodeMapGetNodeByIndex` call per index, in order, whatever the
accumulator. -/
theorem feature_names_foldl_trace (st : NativeNodemap) :
    ∀ (l : List Nat) (acc : List NCall × List String),
      (l.foldl (feature_names_step st) acc).1 = acc.1 ++ l.map NCall.nmGetNodeByIndex := by
  intro l
  induction l with
  | nil => intro acc; simp
  | cons i rest ih =>
    intro acc
    rw [List.foldl_cons, ih, List.map_cons]
    unfold feature_names_step
    by_cases h : st.isFeature (Node.mk (st.nodeByIndex i)).hxnode <;> simp [h]

/-- The `synchronize_cameras` device walk, characterised: starting from
`master_found = mf`, a pass neither restarts nor misses a master exactly
when every status is `Master` or `Slave` and the number of `Master`s is
one (zero when one was already found). -/
theorem ptp_sync_pass_spec :
    ∀ (l : List String) (mf : Bool),
      (!(ptp_sync_pass l mf).2 && (ptp_sync_pass l mf).1) =
        (l.all (fun s => s == "Master" || s == "Slave") &&
         (if mf then l.count "Master" == 0 else l.count "Master" == 1)) := by
  intro l
  induction l with
  | nil => intro mf; cases mf <;> rfl
  | cons s rest ih =>
    intro mf
    by_cases hM : s = "Master"
    · subst hM
      cases mf with
      | false =>
        rw [show ptp_sync_pass ("Master" :: rest) false = ptp_sync_pass rest true from by
          simp [ptp_sync_pass]]
        rw [ih true]
        have hc : (rest.count "Master" + 1 == 1) = (rest.count "Master" == 0) := by
          cases h : rest.count "Master" <;> simp
        simp [List.count_cons, hc]
      | true =>
        simp [ptp_sync_pass, List.count_cons]
    · by_cases hS : s = "Slave"
      · subst hS
        rw [show ptp_sync_pass ("Slave" :: rest) mf = ptp_sync_pass rest mf from by
          simp [ptp_sync_pass]]
        rw [ih mf]
        simp [List.count_cons]
      · simp [ptp_sync_pass, hM, hS, List.count_cons]

/-- A sequence of one-buffer get/requeue blocks leaves no buffer
outstanding. -/
theorem rq_getRequeueBlocks (d : Nat) :
    ∀ l : List Nat,
      List.foldl rqStep (some []) (List.flatten (l.map (getRequeueBlock d))) = some [] := by
  intro l
  induction l with
  | nil => simp
  | cons i rest ih =>
    rw [List.map_cons, List.flatten_cons, List.foldl_append]
    have hblock : List.foldl rqStep (some []) (getRequeueBlock d i) = some [] := by
      simp [getRequeueBlock, rqStep, removeIds]
    rw [hblock, ih]

/-- The `py_live_stream` iterations (get, copy, requeue, destroy) leave
no buffer outstanding. -/
theorem rq_liveBlocks :
    ∀ l : List Nat,
      List.foldl rqStep (some []) (List.flatten (l.map py_live_stream_iteration)) = some [] := by
  intro l
  induction l with
  | nil => simp
  | cons i rest ih =>
    rw [List.map_cons, List.flatten_cons, List.foldl_append]
    have hblock : List.foldl rqStep (some []) (py_live_stream_iteration i) = some [] := by
      simp [py_live_stream_iteration, rqStep, removeIds]
    rw [hblock, ih]

/-- The `py_live_stream` iterations only ever destroy the copy each of
them just created. -/
theorem dd_liveBlocks :
    ∀ (l : List Nat) (c : List Nat), ∃ c2,
      List.foldl ddStep (some c) (List.flatten (l.map py_live_stream_iteration)) = some c2 := by
  intro l
  induction l with
  | nil => intro c; exact ⟨c, by simp⟩
  | cons i rest ih =>
    intro c
    rw [List.map_cons, List.flatten_cons, List.foldl_append]
    have hblock : List.foldl ddStep (some c) (py_live_stream_iteration i) =
        some ((100 + i) :: c) := by
      simp [py_live_stream_iteration, ddStep]
    rw [hblock]
    exact ih ((100 + i) :: c)

/-- The per-device get/requeue blocks of `schedule_action_command` leave
no buffer outstanding. -/
theorem rq_schedBlocks :
    ∀ l : List Nat,
      List.foldl rqStep (some []) (List.flatten (l.map (fun d =>
        [BufEvent.getBuffer d [d], BufEvent.requeueBuffer d [d]]))) = some [] := by
  intro l
  induction l with
  | nil => simp
  | cons i rest ih =>
    rw [List.map_cons, List.flatten_cons, List.foldl_append]
    have hblock : List.foldl rqStep (some [])
        [BufEvent.getBuffer i [i], BufEvent.requeueBuffer i [i]] = some [] := by
      simp [rqStep, removeIds]
    rw [hblock, ih]

/-- Starting streams acquires no buffers. -/
theorem rq_starts :
    ∀ ds : List Nat, List.foldl rqStep (some []) (ds.map BufEvent.startStream) = some [] := by
  intro ds
  induction ds with
  | nil => rfl
  | cons d rest ih => simpa [rqStep] using ih

/-- The reconnect sessions of `py_enumeration_handlingdisconnections`
leave no buffer outstanding. -/
theorem rq_sessions :
    ∀ sessions : List Nat,
      List.foldl rqStep (some []) (List.flatten (sessions.map (fun m =>
        BufEvent.startStream 0 :: List.flatten ((List.range m).map (getRequeueBlock 0)))))
      = some [] := by
  intro sessions
  induction sessions with
  | nil => simp
  | cons m rest ih =>
    rw [List.map_cons, List.flatten_cons, List.foldl_append, List.foldl_cons,
      show rqStep (some []) (BufEvent.startStream 0) = some [] from rfl,
      rq_getRequeueBlocks, ih]

/-- Get/requeue blocks contain no `BufferFactory.destroy` call. -/
theorem isDestroyEvent_getRequeueBlock (d i : Nat) :
    ∀ x ∈ getRequeueBlock d i, isDestroyEvent x = false := by
  intro x hx
  rcases (by simpa [getRequeueBlock] using hx :
      x = BufEvent.getBuffer d [i] ∨ x = BufEvent.requeueBuffer d [i]) with h | h <;>
    subst h <;> rfl

/-! Claim theorems. -/

/-- C1: the binding layer forwards calls 1:1 to exported native
functions — for each public binding operation (node lookup, node-map
poll, lock/unlock, feature-stream select/read/write) invoked with valid
arguments, the operation performs exactly one native call carrying the
marshalled argument and returns the native result unchanged (the node
handle merely wrapped), with no other native call, lookup, or
transformation. -/
theorem C1_binding_forwards_one_native_call (st : NativeNodemap) :
    lock st = ([NCall.nmLock], Except.ok ())
  ∧ unlock st = ([NCall.nmUnlock], Except.ok ())
  ∧ (∀ n : Int, 0 < n → poll st (PyVal.int n) = ([NCall.nmPoll n], Except.ok ()))
  ∧ (∀ name, st.nodeHandle name ≠ 0 →
      get_node_of_name st name =
        ([NCall.nmGetNode name], Except.ok (SpecificNode.mk (st.nodeHandle name))))
  ∧ (∀ s, xFeatureStreamSelect s = ([NCall.fsSelect s], Except.ok ()))
  ∧ xFeatureStreamWrite = ([NCall.fsWrite], Except.ok ())
  ∧ (∀ s, xFeatureStreamWriteFileName s = ([NCall.fsWriteFileName s], Except.ok ()))
  ∧ xFeatureStreamRead = ([NCall.fsRead], Except.ok ())
  ∧ (∀ s, xFeatureStreamReadFileName s = ([NCall.fsReadFileName s], Except.ok ())) := by
  refine ⟨rfl, rfl, ?_, ?_, fun s => rfl, rfl, fun s => rfl, rfl, fun s => rfl⟩
  · intro n hn
    simp [poll, check_poll_parameter_elapsed_time_millisec, not_le.mpr hn]
  · intro name h
    simp [get_node_of_name, h, cast_from_general_node_to_specific_node_type]

/-- C1 witness: the one-call forwarding instantiated on a concrete node
map, a concrete poll time and a concrete existing node name. -/
theorem C1_binding_forwards_one_native_call_witness :
    poll sampleState (PyVal.int 3) = ([NCall.nmPoll 3], Except.ok ())
  ∧ get_node_of_name sampleState "Width" =
      ([NCall.nmGetNode "Width"], Except.ok (SpecificNode.mk (sampleState.nodeHandle "Width")))
  ∧ lock sampleState = ([NCall.nmLock], Except.ok ()) := by
  obtain ⟨h1, _, h3, h4, _⟩ := C1_binding_forwards_one_native_call sampleState
  exact ⟨h3 3 (by decide), h4 "Width" (by decide), h1⟩

/-- C2: `Nodemap.write_streamable_node_values_to` and
`Nodemap.read_streamable_node_values_from`, called with a file-name
string `f`, each perform exactly one native `acFeatureStream`
write-file-name / read-file-name call, carrying exactly the caller's
`f` (the only other native call being the `acFeatureStreamCreate` that
builds the stream). -/
theorem C2_feature_stream_passthrough (st : NativeNodemap) (tn f : String)
    (h : st.hNodemap ≠ 0) :
    write_streamable_node_values_to st tn (PyVal.str f) =
      ([NCall.fsCreate st.hNodemap, NCall.fsWriteFileName f], Except.ok ())
  ∧ read_streamable_node_values_from st (PyVal.str f) =
      ([NCall.fsCreate st.hNodemap, NCall.fsReadFileName f], Except.ok ())
  ∧ writeFileNameArgs (write_streamable_node_values_to st tn (PyVal.str f)).1 = [f]
  ∧ readFileNameArgs (read_streamable_node_values_from st (PyVal.str f)).1 = [f] := by
  have hw : write_streamable_node_values_to st tn (PyVal.str f) =
      ([NCall.fsCreate st.hNodemap, NCall.fsWriteFileName f], Except.ok ()) := by
    simp [write_streamable_node_values_to, xFeaturestream_create, h, trBind,
      xFeatureStreamWriteFileName]
  have hr : read_streamable_node_values_from st (PyVal.str f) =
      ([NCall.fsCreate st.hNodemap, NCall.fsReadFileName f], Except.ok ()) := by
    simp [read_streamable_node_values_from, xFeaturestream_create, h, trBind,
      xFeatureStreamReadFileName]
  refine ⟨hw, hr, ?_, ?_⟩
  · rw [hw]; rfl
  · rw [hr]; rfl

/-- C2 witness: the feature-stream pass-through instantiated on a
concrete node map and file name. -/
theorem C2_feature_stream_passthrough_witness :
    write_streamable_node_values_to sampleState "device_nodemap" (PyVal.str "cfg.txt") =
      ([NCall.fsCreate sampleState.hNodemap, NCall.fsWriteFileName "cfg.txt"], Except.ok ())
  ∧ read_streamable_node_values_from sampleState (PyVal.str "cfg.txt") =
      ([NCall.fsCreate sampleState.hNodemap, NCall.fsReadFileName "cfg.txt"], Except.ok ()) := by
  obtain ⟨hw, hr, _, _⟩ :=
    C2_feature_stream_passthrough sampleState "device_nodemap" "cfg.txt" (by decide)
  exact ⟨hw, hr⟩

/-- C3 counterexample: the scheduled-action-commands example does
compute an action-command execution time itself — the value it writes
to `ActionCommandExecuteTime` for a latched PTP time of 0 is
1000000000 (the latch plus `DELTA_TIME_NS`), not the SDK-provided value
0 forwarded unchanged. -/
theorem C3_counterexample_execute_time_computed :
    scheduled_action_execute_time 0 = 1000000000 ∧ scheduled_action_execute_time 0 ≠ 0 := by
  constructor <;> decide

/-- C3 amended: the PTP master/slave negotiation itself happens in the
devices — the example only polls the `PtpStatus` values and waits until
every status is `Master` or `Slave` with exactly one `Master` — but the
example does compute the action-command execution time itself, as the
latched PTP time plus `DELTA_TIME_NS` (one second), before forwarding
it to the SDK. -/
theorem C3_amended_ptp_wait_and_execute_time :
    (∀ latch : Int, scheduled_action_execute_time latch = latch + DELTA_TIME_NS)
  ∧ DELTA_TIME_NS = 1000000000
  ∧ (∀ statuses : List String,
      ptp_sync_complete statuses =
        (statuses.all (fun s => s == "Master" || s == "Slave") &&
         statuses.count "Master" == 1)) := by
  refine ⟨fun latch => rfl, rfl, ?_⟩
  intro statuses
  unfold ptp_sync_complete
  simpa using ptp_sync_pass_spec statuses false

/-- C4: `feature_names` re-enumerates the node map on every access —
its native-call trace is exactly `xNodeMapGetNumNodes` followed by
`xNodeMapGetNodeByIndex` for each index — and `poll` forwards a valid
`t` (or 1000 for `None`) to the native `xNodeMapPoll`; no node state is
kept on the Python side (both are functions of the native node map
only). -/
theorem C4_nodemap_no_cache_forwarding (st : NativeNodemap) :
    (get_feature_names st).1 =
      NCall.nmGetNumNodes :: (List.range st.numNodes).map NCall.nmGetNodeByIndex
  ∧ (∀ n : Int, 0 < n → poll st (PyVal.int n) = ([NCall.nmPoll n], Except.ok ()))
  ∧ poll st PyVal.none = ([NCall.nmPoll DEFAULT_POLL_TIME_MILLISEC], Except.ok ())
  ∧ DEFAULT_POLL_TIME_MILLISEC = 1000 := by
  refine ⟨?_, ?_, rfl, rfl⟩
  · unfold get_feature_names
    rw [feature_names_foldl_trace]
    simp
  · intro n hn
    simp [poll, check_poll_parameter_elapsed_time_millisec, not_le.mpr hn]

/-- C4 witness: the enumeration trace and poll forwarding on a concrete
two-node node map. -/
theorem C4_nodemap_no_cache_forwarding_witness :
    (get_feature_names sampleState).1 =
      [NCall.nmGetNumNodes, NCall.nmGetNodeByIndex 0, NCall.nmGetNodeByIndex 1]
  ∧ poll sampleState (PyVal.int 2000) = ([NCall.nmPoll 2000], Except.ok ()) := by
  obtain ⟨h1, h2, _, _⟩ := C4_nodemap_no_cache_forwarding sampleState
  constructor
  · rw [h1]; decide
  · exact h2 2000 (by decide)

/-- Get/requeue block sequences contain no destroy call. -/
theorem noDestroy_getRequeueBlocks (d : Nat) :
    ∀ l : List Nat,
      (List.flatten (l.map (getRequeueBlock d))).any isDestroyEvent = false := by
  intro l
  induction l with
  | nil => rfl
  | cons i rest ih =>
    rw [List.map_cons, List.flatten_cons, List.any_append, ih]
    rfl

/-- The reconnect sessions of `py_enumeration_handlingdisconnections`
contain no destroy call. -/
theorem noDestroy_sessions :
    ∀ sessions : List Nat,
      (List.flatten (sessions.map (fun m =>
        BufEvent.startStream 0 :: List.flatten ((List.range m).map (getRequeueBlock 0))))).any
        isDestroyEvent = false := by
  intro sessions
  induction sessions with
  | nil => rfl
  | cons m rest ih =>
    rw [List.map_cons, List.flatten_cons, List.any_append, ih, List.any_cons,
      noDestroy_getRequeueBlocks]
    rfl

set_option maxRecDepth 100000

/-- C5 counterexample: the claim that no example ever frees or destroys
a buffer itself is false — `py_save.py` destroys the converted copy it
creates (`BufferFactory.destroy(converted)`, line 99), so its buffer
trace contains a destroy event. -/
theorem C5_counterexample_buffer_destroy_in_example :
    containsDestroy py_save_buffers = true
  ∧ BufEvent.bufferDestroy 100 ∈ py_save_buffers := by
  constructor <;> decide

/-- C5 amended: in every example, every buffer obtained from
`device.get_buffer` is handed back by `device.requeue_buffer` on the
same device before that device's stream is stopped; but four examples
do manage buffer storage themselves with `BufferFactory.destroy` —
`py_save`, `py_live_stream` and `py_exposure_forhdr` destroy only
copies they created with `BufferFactory.copy`/`convert`, while
`py_acquisition_single_buffer_gui` destroys its BGR8-conversion result,
which is the acquired device buffer itself whenever that buffer was
already BGR8 (the conversion helper then returns it unchanged).  All
other examples contain no destroy call at all. -/
theorem C5_amended_buffer_lifecycle :
    requeueDiscipline py_simple_acquisition_buffers = true
  ∧ requeueDiscipline py_acquisition_rapid_buffers = true
  ∧ requeueDiscipline py_acquisition_sensor_binning_buffers = true
  ∧ (∀ d, requeueDiscipline (py_acquisition_multi_device_buffers d) = true)
  ∧ requeueDiscipline py_exposure_buffers = true
  ∧ requeueDiscipline py_exposure_long_buffers = true
  ∧ requeueDiscipline py_exposure_forhdr_buffers = true
  ∧ requeueDiscipline py_lut_buffers = true
  ∧ requeueDiscipline py_trigger_buffers = true
  ∧ requeueDiscipline py_trigger_overlappingtrigger_buffers = true
  ∧ requeueDiscipline py_trigger_waitfornextleader_buffers = true
  ∧ (∀ n, requeueDiscipline (py_live_stream_buffers n) = true)
  ∧ requeueDiscipline py_save_buffers = true
  ∧ requeueDiscipline py_save_file_name_pattern_buffers = true
  ∧ requeueDiscipline py_save_writer_advanced_buffers = true
  ∧ requeueDiscipline py_save_multithreading_buffers = true
  ∧ requeueDiscipline py_callback_multithreaded_buffer_callbacks_buffers = true
  ∧ requeueDiscipline py_chunkdata_buffers = true
  ∧ requeueDiscipline py_chunkdata_crc_validation_buffers = true
  ∧ (∀ sessions, requeueDiscipline
      (py_enumeration_handlingdisconnections_buffers sessions) = true)
  ∧ (∀ k, requeueDiscipline (py_scheduled_action_commands_buffers k) = true)
  ∧ (∀ b, requeueDiscipline (py_acquisition_single_buffer_gui_buffers b) = true)
  ∧ destroyDiscipline py_exposure_forhdr_buffers = true
  ∧ (∀ n, destroyDiscipline (py_live_stream_buffers n) = true)
  ∧ destroyDiscipline py_save_buffers = true
  ∧ destroyDiscipline py_save_multithreading_buffers = true
  ∧ destroyDiscipline (py_acquisition_single_buffer_gui_buffers false) = true
  ∧ destroyDiscipline (py_acquisition_single_buffer_gui_buffers true) = false
  ∧ BufEvent.bufferDestroy 0 ∈ py_acquisition_single_buffer_gui_buffers true
  ∧ containsDestroy py_simple_acquisition_buffers = false
  ∧ containsDestroy py_acquisition_rapid_buffers = false
  ∧ containsDestroy py_acquisition_sensor_binning_buffers = false
  ∧ (∀ d, containsDestroy (py_acquisition_multi_device_buffers d) = false)
  ∧ containsDestroy py_exposure_buffers = false
  ∧ containsDestroy py_exposure_long_buffers = false
  ∧ containsDestroy py_lut_buffers = false
  ∧ containsDestroy py_trigger_buffers = false
  ∧ containsDestroy py_trigger_overlappingtrigger_buffers = false
  ∧ containsDestroy py_trigger_waitfornextleader_buffers = false
  ∧ containsDestroy py_save_file_name_pattern_buffers = false
  ∧ containsDestroy py_save_writer_advanced_buffers = false
  ∧ containsDestroy py_callback_multithreaded_buffer_callbacks_buffers = false
  ∧ containsDestroy py_chunkdata_buffers = false
  ∧ containsDestroy py_chunkdata_crc_validation_buffers = false
  ∧ (∀ sessions, containsDestroy
      (py_enumeration_handlingdisconnections_buffers sessions) = false)
  ∧ (∀ k, containsDestroy (py_scheduled_action_commands_buffers k) = false) := by
  refine ⟨by decide, by decide, by decide, ?_, by decide, by decide, by decide, by decide,
    by decide, by decide, by decide, ?_, by decide, by decide, by decide, by decide,
    by decide, by decide, by decide, ?_, ?_, ?_, by decide, ?_, by decide, by decide,
    by decide, by decide, by decide, by decide, by decide, by decide, ?_, by decide,
    by decide, by decide, by decide, by decide, by decide, by decide, by decide,
    by decide, by decide, by decide, ?_, ?_⟩
  · intro d
    unfold requeueDiscipline py_acquisition_multi_device_buffers
    rw [List.cons_append, List.foldl_cons,
      show rqStep (some []) (BufEvent.startStream d) = some [] from rfl,
      List.foldl_append, rq_getRequeueBlocks]
    rfl
  · intro n
    unfold requeueDiscipline py_live_stream_buffers
    rw [List.cons_append, List.foldl_cons,
      show rqStep (some []) (BufEvent.startStream 0) = some [] from rfl,
      List.foldl_append, rq_liveBlocks]
    rfl
  · intro sessions
    unfold requeueDiscipline py_enumeration_handlingdisconnections_buffers
    rw [List.foldl_append, rq_sessions]
    rfl
  · intro k
    unfold requeueDiscipline py_scheduled_action_commands_buffers
    rw [List.foldl_append, rq_starts, rq_schedBlocks]
  · intro b
    cases b <;> decide
  · intro n
    unfold destroyDiscipline py_live_stream_buffers
    rw [List.cons_append, List.foldl_cons,
      show ddStep (some []) (BufEvent.startStream 0) = some [] from rfl,
      List.foldl_append]
    obtain ⟨c2, hc⟩ := dd_liveBlocks (List.range n) []
    rw [hc]
    rfl
  · intro d
    unfold containsDestroy py_acquisition_multi_device_buffers
    rw [List.any_append, List.any_cons, noDestroy_getRequeueBlocks]
    rfl
  · intro sessions
    unfold containsDestroy py_enumeration_handlingdisconnections_buffers
    rw [List.any_append, noDestroy_sessions]
    rfl
  · intro k
    unfold containsDestroy py_scheduled_action_commands_buffers
    simp [isDestroyEvent]

/-- C6 counterexample: the claim that no code in the package or its
examples creates threads, inter-thread queues, or shared
synchronization state is false — `py_save_multithreading.py` creates a
shared `multiprocessing.Value`, a `queue.Queue`, and a
`threading.Thread`. -/
theorem C6_counterexample_threads_created :
    example_concurrency.lookup "py_save_multithreading.py" =
      some [ConcurrencyPrim.sharedValueCreate, ConcurrencyPrim.queueCreate,
        ConcurrencyPrim.threadCreate]
  ∧ ConcurrencyPrim.threadCreate ∈
      [ConcurrencyPrim.sharedValueCreate, ConcurrencyPrim.queueCreate,
        ConcurrencyPrim.threadCreate] := by
  constructor <;> decide

/-- C6 amended: the `arena_api` package modules under review create no
threads, queues, locks, or shared synchronization state; exactly four
example scripts do, all built from Python's standard
`threading`/`queue`/`multiprocessing` primitives (no synchronization
primitive is implemented in this repository):
`py_acquisition_multi_device` and
`py_callback_multithreaded_buffer_callbacks` (a lock and worker
threads), `py_enumeration_handlingdisconnections` (a condition variable
and a thread), and `py_save_multithreading` (a shared flag, a queue and
a thread). -/
theorem C6_amended_concurrency_inventory :
    package_module_concurrency.all (fun p => p.2.isEmpty) = true
  ∧ example_concurrency.all
      (fun p => p.2.isEmpty || threaded_example_names.contains p.1) = true
  ∧ example_concurrency.lookup "py_acquisition_multi_device.py" =
      some [ConcurrencyPrim.lockCreate, ConcurrencyPrim.threadCreate]
  ∧ example_concurrency.lookup "py_callback_multithreaded_buffer_callbacks.py" =
      some [ConcurrencyPrim.lockCreate, ConcurrencyPrim.threadCreate]
  ∧ example_concurrency.lookup "py_enumeration_handlingdisconnections.py" =
      some [ConcurrencyPrim.conditionCreate, ConcurrencyPrim.threadCreate]
  ∧ threaded_example_names.length = 4 := by
  refine ⟨by decide, by decide, by decide, by decide, by decide, by decide⟩

/-- C7: `Nodemap.poll` raises `TypeError` for every argument that is
neither an `int` nor `None`, raises `ValueError` for every `int`
`t ≤ 0`, substitutes `DEFAULT_POLL_TIME_MILLISEC` (1000) for `None`,
and otherwise forwards `t` unchanged in a single native poll call
returning `None`; on every raising path the trace is empty, so no
native call touches the node map. -/
theorem C7_poll_validation (st : NativeNodemap) :
    (∀ v, pyIsInt v = false → pyIsNone v = false →
      poll st v = ([], Except.error
        (PyErr.typeError ("expected int instead of " ++ pyTypeName v))))
  ∧ (∀ n : Int, n ≤ 0 → poll st (PyVal.int n) =
      ([], Except.error (PyErr.valueError "timeout must be > 0")))
  ∧ poll st PyVal.none = ([NCall.nmPoll DEFAULT_POLL_TIME_MILLISEC], Except.ok ())
  ∧ DEFAULT_POLL_TIME_MILLISEC = 1000
  ∧ (∀ n : Int, 0 < n → poll st (PyVal.int n) = ([NCall.nmPoll n], Except.ok ())) := by
  refine ⟨?_, ?_, rfl, rfl, ?_⟩
  · intro v h1 h2
    cases v <;> simp_all [poll, check_poll_parameter_elapsed_time_millisec, pyIsInt,
      pyIsNone, pyTypeName]
  · intro n hn
    simp [poll, check_poll_parameter_elapsed_time_millisec, hn]
  · intro n hn
    simp [poll, check_poll_parameter_elapsed_time_millisec, not_le.mpr hn]

/-- C7 witness: the poll validation instantiated on a concrete node map
with a string argument, a non-positive time, `None`, and a positive
time. -/
theorem C7_poll_validation_witness :
    poll sampleState (PyVal.str "abc") =
      ([], Except.error
        (PyErr.typeError ("expected int instead of " ++ pyTypeName (PyVal.str "abc"))))
  ∧ poll sampleState (PyVal.int 0) =
      ([], Except.error (PyErr.valueError "timeout must be > 0"))
  ∧ poll sampleState PyVal.none = ([NCall.nmPoll DEFAULT_POLL_TIME_MILLISEC], Except.ok ())
  ∧ poll sampleState (PyVal.int 5) = ([NCall.nmPoll 5], Except.ok ()) := by
  obtain ⟨h1, h2, h3, _, h5⟩ := C7_poll_validation sampleState
  exact ⟨h1 (PyVal.str "abc") rfl rfl, h2 0 (by decide), h3, h5 5 (by decide)⟩

/-- C8: for a name bound to a node, `nodemap[name]` and
`nodemap.get_node(name)` return the same node; for a name bound to no
node, `nodemap[name]` raises `KeyError` while `get_node(name)` raises
`ValueError`; for a non-string key, `nodemap[key]` raises `TypeError`
while `get_node` of an argument that is not a `str`, `list` or `tuple`
raises `ValueError`. -/
theorem C8_getitem_vs_get_node (st : NativeNodemap) :
    (∀ name, st.nodeHandle name ≠ 0 →
      (nodemap_getitem st (PyVal.str name)).2 =
          Except.ok (SpecificNode.mk (st.nodeHandle name)) ∧
        (get_node st (PyVal.str name)).2 =
          Except.ok (GetNodeResult.node (SpecificNode.mk (st.nodeHandle name))))
  ∧ (∀ name, st.nodeHandle name = 0 →
      isKeyError (nodemap_getitem st (PyVal.str name)).2 = true ∧
        isValueError (get_node st (PyVal.str name)).2 = true)
  ∧ (∀ v, pyIsStr v = false →
      isTypeError (nodemap_getitem st v).2 = true ∧
        (pyIsList v = false → pyIsTuple v = false →
          isValueError (get_node st v).2 = true)) := by
  refine ⟨?_, ?_, ?_⟩
  · intro name h
    constructor
    · simp [nodemap_getitem, get_node_of_name, h,
        cast_from_general_node_to_specific_node_type]
    · simp [get_node, get_node_of_name, h, trBind,
        cast_from_general_node_to_specific_node_type]
  · intro name h
    constructor
    · unfold nodemap_getitem get_node_of_name
      by_cases he : (find_closest_matches_to_node_name st name).2.isEmpty <;>
        simp [h, he, isKeyError]
    · unfold get_node get_node_of_name
      by_cases he : (find_closest_matches_to_node_name st name).2.isEmpty <;>
        simp [h, he, isValueError, trBind]
  · intro v hs
    cases v <;> simp_all [nodemap_getitem, get_node, pyIsStr, pyIsList, pyIsTuple,
      isTypeError, isValueError, trBind]

/-- C8 witness: the lookup equivalence and the error split instantiated
on a concrete node map with an existing name, a missing name, and an
`int` key. -/
theorem C8_getitem_vs_get_node_witness :
    (nodemap_getitem sampleState (PyVal.str "Width")).2 =
      Except.ok (SpecificNode.mk (sampleState.nodeHandle "Width"))
  ∧ (get_node sampleState (PyVal.str "Width")).2 =
      Except.ok (GetNodeResult.node (SpecificNode.mk (sampleState.nodeHandle "Width")))
  ∧ isKeyError (nodemap_getitem sampleState (PyVal.str "Nope")).2 = true
  ∧ isValueError (get_node sampleState (PyVal.str "Nope")).2 = true
  ∧ isTypeError (nodemap_getitem sampleState (PyVal.int 3)).2 = true
  ∧ isValueError (get_node sampleState (PyVal.int 3)).2 = true := by
  obtain ⟨h1, h2, h3⟩ := C8_getitem_vs_get_node sampleState
  obtain ⟨ha, hb⟩ := h1 "Width" (by decide)
  obtain ⟨hc, hd⟩ := h2 "Nope" (by decide)
  obtain ⟨he, hf⟩ := h3 (PyVal.int 3) rfl
  exact ⟨ha, hb, hc, hd, he, hf rfl rfl⟩

/-- C9: for every input of the form `a.b.c.d` (four dot-separated
fields, the last one numeric), `add_one_to_ip` keeps the first three
fields and maps the last to `1` when it is the string `254`, and to
`str(int(d) + 1)` otherwise — so 255 is skipped only through the
254-to-1 wrap, and `255` itself goes to `256`. -/
theorem C9_add_one_to_ip_fields (ip a b c d : String) (dv : Int)
    (hsplit : pySplitDot ip = [a, b, c, d]) (hd : pyInt d = some dv) :
    add_one_to_ip ip =
      some (a ++ "." ++ b ++ "." ++ c ++ "." ++
        (if d = "254" then "1" else toString (dv + 1))) := by
  unfold add_one_to_ip
  rw [hsplit]
  by_cases h : d = "254" <;> simp [h, hd]

/-- C9 witness: the octet arithmetic at the concrete addresses
`192.168.0.255` (mapped to `.256`) and `10.0.0.254` (wrapped to `.1`). -/
theorem C9_add_one_to_ip_fields_witness :
    add_one_to_ip "192.168.0.255" = some "192.168.0.256"
  ∧ add_one_to_ip "10.0.0.254" = some "10.0.0.1" := by
  constructor
  · have h := C9_add_one_to_ip_fields "192.168.0.255" "192" "168" "0" "255" 255
      (by decide) (by decide)
    rw [h]
    decide
  · have h := C9_add_one_to_ip_fields "10.0.0.254" "10" "0" "0" "254" 254
      (by decide) (by decide)
    rw [h]
    decide
